import Mathlib

/-!
Shallow embedding of the "Magic Eraser AI" watermark-removal app.

The source consists of three files:
* `services/geminiService.ts` — `fileToBase64` (encode a file as base64 by reading it
  as a data URL and stripping the `data:<mime>;base64,` prefix), `removeImageWatermark`
  (one remote edit call; scan the response parts for the first inline binary payload),
  and `reconstructVideoFromImage` (key gate, job submission, 5-second poll loop,
  result-locator lookup, asset fetch).
* `App.tsx` — the orchestration handler `handleRemoveWatermark` driving the image and
  video flows, plus `handleFileSelect` and the start-over handler.
* `types.ts` — `MediaType` and `ProcessingState`.

Remote services, the file reader and the canvas are modelled as oracles supplied in an
environment record; each client/orchestrator function returns its outcome together with
an explicit event trace so that call counts and ordering can be stated.
-/

namespace MagicEraser

/-- JS `String.prototype.split(',')` on a character list: the maximal comma-free
segments, in order (`"a,,b".split(',') = ["a","","b"]`). -/
def splitOnComma : List Char → List (List Char)
  | [] => [[]]
  | c :: rest =>
    if c = ',' then [] :: splitOnComma rest
    else
      match splitOnComma rest with
      | [] => [[c]]
      | seg :: segs => (c :: seg) :: segs

/-- Modelled from the spec: the alphabet of the standard base64 encoding convention used
by the browser's `FileReader.readAsDataURL` (which is not part of the repository). -/
def b64Alphabet : List Char :=
  "ABCDEFGHIJKLMNOPQRSTUVWXYZabcdefghijklmnopqrstuvwxyz0123456789+/".data

/-- Character for a 6-bit group. -/
def b64Char (n : Nat) : Char := b64Alphabet.getD n 'A'

/-- Index of a character in a list, starting at `i`. -/
def lookupIdx (c : Char) : List Char → Nat → Option Nat
  | [], _ => none
  | d :: rest, i => if d = c then some i else lookupIdx c rest (i + 1)

/-- Inverse of `b64Char` on the alphabet. -/
def b64Val (c : Char) : Option Nat := lookupIdx c b64Alphabet 0

/-- Modelled from the spec: standard base64 encoding of a byte sequence (the encoding
performed by `FileReader.readAsDataURL`, which is missing from the repository source).
Three bytes become four alphabet characters; a final group of one or two bytes is
padded with `=`. -/
def base64Encode : List Nat → List Char
  | [] => []
  | [b1] => [b64Char (b1 / 4), b64Char (b1 % 4 * 16), '=', '=']
  | [b1, b2] =>
    [b64Char (b1 / 4), b64Char (b1 % 4 * 16 + b2 / 16), b64Char (b2 % 16 * 4), '=']
  | b1 :: b2 :: b3 :: rest =>
    b64Char (b1 / 4) :: b64Char (b1 % 4 * 16 + b2 / 16) ::
      b64Char (b2 % 16 * 4 + b3 / 64) :: b64Char (b3 % 64) :: base64Encode rest

/-- Modelled from the spec: base64 decoding, the inverse direction of the round-trip
property (decoding is not in the repository source either; it is the spec's
`strip-prefix → decode` step). -/
def base64Decode : List Char → Option (List Nat)
  | [] => some []
  | c1 :: c2 :: c3 :: c4 :: rest =>
    match b64Val c1, b64Val c2 with
    | some v1, some v2 =>
      if c3 = '=' then
        if c4 = '=' ∧ rest = [] then some [v1 * 4 + v2 / 16] else none
      else
        match b64Val c3 with
        | some v3 =>
          if c4 = '=' then
            if rest = [] then some [v1 * 4 + v2 / 16, v2 % 16 * 16 + v3 / 4] else none
          else
            match b64Val c4 with
            | some v4 =>
              match base64Decode rest with
              | some bs =>
                some ((v1 * 4 + v2 / 16) :: (v2 % 16 * 16 + v3 / 4) ::
                  (v3 % 4 * 64 + v4) :: bs)
              | none => none
            | none => none
        | none => none
    | _, _ => none
  | _ => none

/-- A user-selected file: raw bytes plus declared mime type (`file.type`). -/
structure MediaFile where
  bytes : List Nat
  mimeType : String
deriving DecidableEq

/-- Modelled from the spec: `FileReader.readAsDataURL` yields
`data:<mime>;base64,<base64 of the bytes>` (see the comment in `fileToBase64`). -/
def readAsDataURL (f : MediaFile) : List Char :=
  "data:".data ++ f.mimeType.data ++ ";base64,".data ++ base64Encode f.bytes

/-- `fileToBase64` (geminiService.ts, lines 11-23): read the file as a data URL and
return `result.split(',')[1]`, i.e. strip the `data:<mime>;base64,` prefix. -/
def fileToBase64 (f : MediaFile) : String :=
  String.mk ((splitOnComma (readAsDataURL f)).getD 1 [])

/-- `inlineData` of a response part: a mime type and a (base64) data payload. -/
structure InlineData where
  mimeType : String
  data : String
deriving DecidableEq

/-- One part of a remote edit-service response: text and/or inline binary data. -/
structure Part where
  text : Option String := none
  inlineData : Option InlineData := none
deriving DecidableEq

/-- `content` of a response candidate. -/
structure Content where
  parts : Option (List Part)
deriving DecidableEq

/-- One candidate of a `generateContent` response. -/
structure Candidate where
  content : Option Content
deriving DecidableEq

/-- A `generateContent` response. -/
structure GenerateContentResponse where
  candidates : Option (List Candidate)
deriving DecidableEq

/-- The optional chain `response.candidates?.[0]?.content?.parts || []`
(geminiService.ts, line 48): any missing link yields the empty part list. -/
def responseParts (r : GenerateContentResponse) : List Part :=
  match r.candidates with
  | none => []
  | some cs =>
    match cs with
    | [] => []
    | c :: _ =>
      match c.content with
      | none => []
      | some ct =>
        match ct.parts with
        | none => []
        | some ps => ps

/-- The loop guard `part.inlineData && part.inlineData.data` (line 49); by JS
truthiness an empty data string does not count as inline binary data. -/
def partHasInline (p : Part) : Bool :=
  match p.inlineData with
  | some d => d.data != ""
  | none => false

/-- The `for (const part of parts)` scan (lines 48-52): the payload of the first part
whose `inlineData.data` is present and nonempty. -/
def firstInlineData : List Part → Option String
  | [] => none
  | p :: rest =>
    match p.inlineData with
    | some d => if d.data = "" then firstInlineData rest else some d.data
    | none => firstInlineData rest

/-- Errors of the image-edit client: the thrown "No image data returned from the
model." and a re-thrown transport/auth failure (the catch block rethrows `error`
unmodified). -/
inductive EditError
  | noResultData
  | transport (msg : String)
deriving DecidableEq

/-- The human-readable message attached to each edit-client error. -/
def EditError.message : EditError → String
  | EditError.noResultData => "No image data returned from the model."
  | EditError.transport m => m

/-- `removeImageWatermark` (geminiService.ts, lines 28-59): issue one
`generateContent` request (its remote outcome is `remote`), scan the response parts in
order, return the first inline payload, and otherwise throw `noResultData`; a failure
of the remote call itself is rethrown as-is by the catch block. -/
def removeImageWatermark (remote : Except String GenerateContentResponse) :
    Except EditError String :=
  match remote with
  | Except.error e => Except.error (EditError.transport e)
  | Except.ok response =>
    match firstInlineData (responseParts response) with
    | some d => Except.ok d
    | none => Except.error EditError.noResultData

/-- The client viewed against a stream of remote answers: the body of
`removeImageWatermark` contains a single `generateContent` call and no loop or retry,
so a run consumes exactly the answer of request 0 and issues exactly 1 request. -/
def removeImageWatermarkRun (oracle : Nat → Except String GenerateContentResponse) :
    Except EditError String × Nat :=
  (removeImageWatermark (oracle 0), 1)

/-- The ambient `window.aistudio` collaborator; `hasSelectedApiKey` is `none` when the
method is absent and `some b` when present and answering `b`. -/
structure AiStudio where
  hasSelectedApiKey : Option Bool
deriving DecidableEq

/-- A Veo video job handle: its `done` flag and the optional chain
`operation.response?.generatedVideos?.[0]?.video?.uri`. -/
structure VideoOperation where
  done : Bool
  uri : Option String
deriving DecidableEq

/-- Errors of the video-job client: the two throws in `reconstructVideoFromImage`. -/
inductive VideoError
  | noPaidKey
  | missingResultLocator
deriving DecidableEq

/-- The human-readable message attached to each video-client error. -/
def VideoError.message : VideoError → String
  | VideoError.noPaidKey => "Please select a paid API key to use Video features."
  | VideoError.missingResultLocator => "Video generation failed to return a URI."

/-- Observable events of the video-job client. -/
inductive VEvent
  | keyCheck (result : Bool)
  | submitCall
  | wait (ms : Nat)
  | statusFetch
  | assetFetch (uri : String)
deriving DecidableEq

/-- Is this event a status fetch (`operations.getVideosOperation`)? -/
def isStatusFetch : VEvent → Bool
  | VEvent.statusFetch => true
  | _ => false

/-- Is this event a fetch of the finished binary asset? -/
def isAssetFetch : VEvent → Bool
  | VEvent.assetFetch _ => true
  | _ => false

/-- The poll loop `while (!operation.done) { await sleep(5000); operation = await
getVideosOperation(...) }` (geminiService.ts, lines 93-96), run against the list
`statuses` of successive remote job-status answers. The first component is the final
held handle (`none` when the answer supply is exhausted while `done` is still false,
i.e. the unbounded real loop would keep polling); the second is the event trace. -/
def pollLoop : VideoOperation → List VideoOperation → Option VideoOperation × List VEvent
  | op, [] => if op.done then (some op, []) else (none, [])
  | op, s :: rest =>
    if op.done then (some op, [])
    else
      let r := pollLoop s rest
      (r.1, VEvent.wait 5000 :: VEvent.statusFetch :: r.2)

/-- The trace of `n` poll iterations: each iteration waits 5000 ms and then fetches
the job status once. -/
def pollTrace : Nat → List VEvent
  | 0 => []
  | n + 1 => VEvent.wait 5000 :: VEvent.statusFetch :: pollTrace n

/-- The body of `reconstructVideoFromImage` after the key gate (lines 78-106): submit
the job (remote answer `submitOp`), poll to completion, read the result locator from
the final handle (`if (!downloadLink) throw`, so a missing or empty URI fails), and
fetch the binary asset, handing back `URL.createObjectURL(blob)` (oracle
`objectUrl`). -/
def videoBody (submitOp : VideoOperation) (statuses : List VideoOperation)
    (objectUrl : String) : Option (Except VideoError String) × List VEvent :=
  let r := pollLoop submitOp statuses
  match r.1 with
  | none => (none, VEvent.submitCall :: r.2)
  | some finalOp =>
    match finalOp.uri with
    | none =>
      (some (Except.error VideoError.missingResultLocator), VEvent.submitCall :: r.2)
    | some u =>
      if u = "" then
        (some (Except.error VideoError.missingResultLocator), VEvent.submitCall :: r.2)
      else
        (some (Except.ok objectUrl),
         VEvent.submitCall :: r.2 ++ [VEvent.assetFetch u])

/-- Does the key gate `if (window.aistudio && window.aistudio.hasSelectedApiKey)
{ ... if (!hasKey) throw ... }` (lines 68-73) let the call proceed? -/
def gatePasses : Option AiStudio → Bool
  | none => true
  | some a =>
    match a.hasSelectedApiKey with
    | none => true
    | some b => b

/-- The events the key gate emits: a check result when the gate actually runs. -/
def gateTrace : Option AiStudio → List VEvent
  | none => []
  | some a =>
    match a.hasSelectedApiKey with
    | none => []
    | some b => [VEvent.keyCheck b]

/-- `reconstructVideoFromImage` (geminiService.ts, lines 66-112): run the key gate
(skipped entirely when `window.aistudio` or its `hasSelectedApiKey` method is absent),
then submit, poll and fetch via `videoBody`. The outcome is `none` on divergence of
the unbounded poll loop. -/
def reconstructVideoFromImage (aistudio : Option AiStudio)
    (submitOp : VideoOperation) (statuses : List VideoOperation) (objectUrl : String) :
    Option (Except VideoError String) × List VEvent :=
  match aistudio with
  | none => videoBody submitOp statuses objectUrl
  | some a =>
    match a.hasSelectedApiKey with
    | none => videoBody submitOp statuses objectUrl
    | some hasKey =>
      if hasKey then
        let r := videoBody submitOp statuses objectUrl
        (r.1, VEvent.keyCheck true :: r.2)
      else
        (some (Except.error VideoError.noPaidKey), [VEvent.keyCheck false])

/-- `MediaType` (types.ts). -/
inductive MediaType
  | IMAGE
  | VIDEO
deriving DecidableEq

/-- The tag of `ProcessingState.status` (types.ts). -/
inductive StatusTag
  | idle
  | uploading
  | processing
  | success
  | error
deriving DecidableEq

/-- `ProcessingState` (types.ts): status tag with optional message and progress. -/
structure ProcessingState where
  status : StatusTag
  message : Option String := none
  progress : Option Nat := none
deriving DecidableEq

/-- The object literal `{ status: 'idle' }`. -/
def idleState : ProcessingState := ⟨StatusTag.idle, none, none⟩

/-- The object literal `{ status: 'success' }`. -/
def successState : ProcessingState := ⟨StatusTag.success, none, none⟩

/-- The object literal `{ status: 'error', message: msg }`. -/
def errorState (msg : String) : ProcessingState := ⟨StatusTag.error, some msg, none⟩

/-- The object literal `{ status: 'processing', message?, progress }`. -/
def processingState (msg : Option String) (progress : Nat) : ProcessingState :=
  ⟨StatusTag.processing, msg, some progress⟩

/-- The component state of `App` that the orchestration reads and writes:
`activeTab`, `file`, `previewUrl`, `resultUrl`, `status`. -/
structure AppState where
  activeTab : MediaType
  file : Option MediaFile
  previewUrl : Option String
  resultUrl : Option String
  status : ProcessingState
deriving DecidableEq

/-- Observable events of one `handleRemoveWatermark` run. -/
inductive OEvent
  | setStatus (s : ProcessingState)
  | sleep (ms : Nat)
  | keyCheck (result : Bool)
  | openSelectKey
  | frameExtract (width : Nat) (height : Nat)
  | editCall (data : String) (mime : String)
  | videoCall (data : String) (mime : String)
deriving DecidableEq

/-- Is this event a run of the in-app key check? -/
def isKeyCheckEvent : OEvent → Bool
  | OEvent.keyCheck _ => true
  | _ => false

/-- Is this event an invocation of the remote image-edit client? -/
def isEditCallEvent : OEvent → Bool
  | OEvent.editCall _ _ => true
  | _ => false

/-- Is this event an invocation of the remote video-job client? -/
def isVideoCallEvent : OEvent → Bool
  | OEvent.videoCall _ _ => true
  | _ => false

/-- Is this event a call to either remote service? -/
def isRemoteCallEvent (e : OEvent) : Bool := isEditCallEvent e || isVideoCallEvent e

/-- Is this event a transition into the `error` state? -/
def isErrorUpdate : OEvent → Bool
  | OEvent.setStatus s =>
    match s.status with
    | StatusTag.error => true
    | _ => false
  | _ => false

/-- The environment of one orchestration run: every external collaborator the
`handleRemoveWatermark` handler touches, as oracles. `readError` is the rejection of
the `FileReader` (surfaced message), `editResponse` the remote outcome of the single
edit call of the run, `videoWidth`/`videoHeight` the native dimensions of the video's
first decodable frame, `frameData` the base64 payload the canvas produces for a
nonzero frame, and `submitOp`/`statuses`/`objectUrl` the video-job oracles. -/
structure OrchEnv where
  readError : Option String
  editResponse : Except String GenerateContentResponse
  aistudio : Option AiStudio
  videoWidth : Nat
  videoHeight : Nat
  frameData : String
  submitOp : VideoOperation
  statuses : List VideoOperation
  objectUrl : String

/-- Modelled from the spec: `canvas.toDataURL('image/jpeg')` on a canvas of the
video's native dimensions (platform behavior, not repository code). Per the HTML
standard a zero-dimension canvas yields the empty data URL `"data:,"`; otherwise the
canvas yields a jpeg data URL whose payload is the oracle `frameData`. -/
def canvasToDataURL (width height : Nat) (frameData : String) : List Char :=
  if width = 0 ∨ height = 0 then "data:,".data
  else "data:image/jpeg;base64,".data ++ frameData.data

/-- `canvas.toDataURL('image/jpeg').split(',')[1]` (App.tsx, line 131): the extracted
reference-frame payload; empty for a zero-dimension frame. -/
def extractedFrameBase64 (env : OrchEnv) : String :=
  String.mk
    ((splitOnComma (canvasToDataURL env.videoWidth env.videoHeight env.frameData)).getD 1 [])

/-- The video flow of `handleRemoveWatermark` after the in-app key gate (App.tsx,
lines 105-140): extract the reference frame, clean it via the edit client, then call
`reconstructVideoFromImage`; any thrown error is caught and becomes an `error` status.
`pre` is the event prefix emitted before this point. -/
def videoFlowBody (env : OrchEnv) (st : AppState) (pre : List OEvent) :
    Option AppState × List OEvent :=
  let frameBase64 := extractedFrameBase64 env
  match removeImageWatermark env.editResponse with
  | Except.error err =>
    (some { st with status := errorState err.message },
     pre ++ [OEvent.setStatus (processingState (some "Extracting reference frame...") 30),
             OEvent.frameExtract env.videoWidth env.videoHeight,
             OEvent.setStatus (processingState (some "Cleaning reference frame...") 50),
             OEvent.editCall frameBase64 "image/jpeg",
             OEvent.setStatus (errorState err.message)])
  | Except.ok cleanFrame =>
    let r := reconstructVideoFromImage env.aistudio env.submitOp env.statuses env.objectUrl
    match r.1 with
    | none =>
      (none,
       pre ++ [OEvent.setStatus (processingState (some "Extracting reference frame...") 30),
               OEvent.frameExtract env.videoWidth env.videoHeight,
               OEvent.setStatus (processingState (some "Cleaning reference frame...") 50),
               OEvent.editCall frameBase64 "image/jpeg",
               OEvent.setStatus
                 (processingState (some "Reconstructing video stream (this may take a minute)...") 70),
               OEvent.videoCall cleanFrame "image/jpeg"])
    | some (Except.ok url) =>
      (some { st with resultUrl := some url, status := successState },
       pre ++ [OEvent.setStatus (processingState (some "Extracting reference frame...") 30),
               OEvent.frameExtract env.videoWidth env.videoHeight,
               OEvent.setStatus (processingState (some "Cleaning reference frame...") 50),
               OEvent.editCall frameBase64 "image/jpeg",
               OEvent.setStatus
                 (processingState (some "Reconstructing video stream (this may take a minute)...") 70),
               OEvent.videoCall cleanFrame "image/jpeg",
               OEvent.setStatus successState])
    | some (Except.error ve) =>
      (some { st with status := errorState (VideoError.message ve) },
       pre ++ [OEvent.setStatus (processingState (some "Extracting reference frame...") 30),
               OEvent.frameExtract env.videoWidth env.videoHeight,
               OEvent.setStatus (processingState (some "Cleaning reference frame...") 50),
               OEvent.editCall frameBase64 "image/jpeg",
               OEvent.setStatus
                 (processingState (some "Reconstructing video stream (this may take a minute)...") 70),
               OEvent.videoCall cleanFrame "image/jpeg",
               OEvent.setStatus (errorState (VideoError.message ve))])

/-- `handleRemoveWatermark` (App.tsx, lines 73-145): return immediately without a file;
otherwise set `{processing, progress: 10}`, encode the file, and run the image flow
(statuses 30/60, one edit call, store `data:<mime>;base64,<result>` on success) or the
video flow (key gate with its non-error early exit to idle, then `videoFlowBody`).
Any thrown error is caught and stored as an `error` status; the first component is
`none` when the run diverges in the unbounded poll loop. -/
def handleRemoveWatermark (env : OrchEnv) (st : AppState) :
    Option AppState × List OEvent :=
  match st.file with
  | none => (some st, [])
  | some f =>
    match env.readError with
    | some e =>
      (some { st with status := errorState e },
       [OEvent.setStatus (processingState none 10), OEvent.setStatus (errorState e)])
    | none =>
      let base64 := fileToBase64 f
      if st.activeTab = MediaType.IMAGE then
        match removeImageWatermark env.editResponse with
        | Except.ok cleanBase64 =>
          (some { st with
                    resultUrl := some ("data:" ++ f.mimeType ++ ";base64," ++ cleanBase64),
                    status := successState },
           [OEvent.setStatus (processingState none 10),
            OEvent.setStatus (processingState (some "Analyzing image structure...") 30),
            OEvent.sleep 500,
            OEvent.setStatus (processingState (some "Removing watermark patterns...") 60),
            OEvent.editCall base64 f.mimeType,
            OEvent.setStatus successState])
        | Except.error err =>
          (some { st with status := errorState err.message },
           [OEvent.setStatus (processingState none 10),
            OEvent.setStatus (processingState (some "Analyzing image structure...") 30),
            OEvent.sleep 500,
            OEvent.setStatus (processingState (some "Removing watermark patterns...") 60),
            OEvent.editCall base64 f.mimeType,
            OEvent.setStatus (errorState err.message)])
      else
        match env.aistudio with
        | some a =>
          match a.hasSelectedApiKey with
          | some false =>
            (some { st with status := idleState },
             [OEvent.setStatus (processingState none 10),
              OEvent.setStatus
                (processingState (some "Video processing requires a paid API key. Checking...") 20),
              OEvent.keyCheck false,
              OEvent.setStatus idleState,
              OEvent.openSelectKey])
          | some true =>
            videoFlowBody env st
              [OEvent.setStatus (processingState none 10),
               OEvent.setStatus
                 (processingState (some "Video processing requires a paid API key. Checking...") 20),
               OEvent.keyCheck true]
          | none =>
            videoFlowBody env st
              [OEvent.setStatus (processingState none 10),
               OEvent.setStatus
                 (processingState (some "Video processing requires a paid API key. Checking...") 20)]
        | none =>
          videoFlowBody env st
            [OEvent.setStatus (processingState none 10),
             OEvent.setStatus
               (processingState (some "Video processing requires a paid API key. Checking...") 20)]

/-- `handleFileSelect` (App.tsx, lines 64-71): store the new file, clear the previous
result, reset the status, and set a fresh preview URL. -/
def handleFileSelect (st : AppState) (selectedFile : MediaFile) (url : String) :
    AppState :=
  { st with file := some selectedFile, resultUrl := none, status := idleState,
            previewUrl := some url }

/-- The "Start Over" button handler (App.tsx, lines 281-286): clear file, result,
preview and status. -/
def startOver (st : AppState) : AppState :=
  { st with file := none, resultUrl := none, previewUrl := none, status := idleState }

/-- The `ProcessingState` values a run published, in order. -/
def statusUpdates (tr : List OEvent) : List ProcessingState :=
  tr.filterMap fun e =>
    match e with
    | OEvent.setStatus s => some s
    | _ => none

/-- The progress percentages a run published, in order (updates without a progress
field contribute nothing). -/
def progressValues (tr : List OEvent) : List Nat :=
  (statusUpdates tr).filterMap fun u => u.progress

/-- The representative 10-byte binary fixture of the spec's concrete scenario. -/
def fixtureFile : MediaFile := ⟨[137, 80, 78, 71, 13, 10, 26, 10, 0, 255], "image/png"⟩

/-- The text part of the spec's concrete image scenario. -/
def c1TextPart : Part := ⟨some "Here is the cleaned image", none⟩

/-- The binary part carrying payload "CLEANED" of the spec's concrete image scenario. -/
def c1BinaryPart : Part := ⟨none, some ⟨"image/png", "CLEANED"⟩⟩

/-- A faked edit-service response: one text part followed by one binary part. -/
def c1Response : GenerateContentResponse :=
  ⟨some [⟨some ⟨some [c1TextPart, c1BinaryPart]⟩⟩]⟩

/-- The environment of the spec's concrete image scenario. -/
def c1Env : OrchEnv :=
  ⟨none, Except.ok c1Response, none, 0, 0, "", ⟨true, none⟩, [], ""⟩

/-- The app state of the spec's concrete image scenario: image tab, the 10-byte png
fixture selected, no prior result. -/
def c1State : AppState :=
  ⟨MediaType.IMAGE, some fixtureFile, some "blob:preview", none, idleState⟩

/-- A faked edit-service response containing only a text part (no binary data). -/
def c4Response : GenerateContentResponse :=
  ⟨some [⟨some ⟨some [⟨some "no image here", none⟩]⟩⟩]⟩

/-- A not-yet-done job handle, as returned by submission and by early polls. -/
def c2Op0 : VideoOperation := ⟨false, none⟩

/-- A finished job handle with a valid result locator. -/
def c2Done : VideoOperation := ⟨true, some "uri-1"⟩

/-- A finished job handle without a result locator. -/
def c5Op : VideoOperation := ⟨true, none⟩

/-- An `aistudio` collaborator whose `hasSelectedApiKey` method is absent. -/
def c10A : AiStudio := ⟨none⟩

/-- A small video file fixture. -/
def videoFile : MediaFile := ⟨[0, 1, 2, 3], "video/mp4"⟩

/-- A finished job handle with a valid locator, used as submission answer. -/
def c10Op : VideoOperation := ⟨true, some "uri-v"⟩

/-- An environment whose `window.aistudio` collaborator is entirely absent. -/
def c10Env : OrchEnv :=
  ⟨none, Except.ok c1Response, none, 2, 2, "FRAMEDATA", c10Op, [], "blob:video"⟩

/-- A video-tab app state with a selected video file. -/
def videoState : AppState :=
  ⟨MediaType.VIDEO, some videoFile, some "blob:pv", none, idleState⟩

/-- An `aistudio` collaborator present and answering `false` to the key check. -/
def c3A : AiStudio := ⟨some false⟩

/-- An environment whose key check answers `false`. -/
def c3Env : OrchEnv :=
  ⟨none, Except.ok c1Response, some c3A, 2, 2, "F", c10Op, [], "blob:v"⟩

/-- An environment whose edit call yields no binary part (the run will fail). -/
def c7Env : OrchEnv :=
  ⟨none, Except.ok c4Response, none, 0, 0, "", c10Op, [], ""⟩

/-- An image-tab state holding a successful result of a prior run. -/
def c7State : AppState :=
  ⟨MediaType.IMAGE, some fixtureFile, some "blob:p", some "data:image/png;base64,OLD",
   successState⟩

/-- The state after a failed re-run over `c7State`: only the status changed. -/
def c7Final : AppState :=
  { c7State with status := errorState "No image data returned from the model." }

/-- The trace of the failed image re-run over `c7State`. -/
def c7Trace : List OEvent :=
  [OEvent.setStatus (processingState none 10),
   OEvent.setStatus (processingState (some "Analyzing image structure...") 30),
   OEvent.sleep 500,
   OEvent.setStatus (processingState (some "Removing watermark patterns...") 60),
   OEvent.editCall (fileToBase64 fixtureFile) "image/png",
   OEvent.setStatus (errorState "No image data returned from the model.")]

/-- An environment whose video yields a zero-dimension first frame. -/
def c9Env : OrchEnv :=
  ⟨none, Except.ok c1Response, none, 0, 0, "IGNORED", c10Op, [], "blob:video"⟩

/-- The events every video run that passes the gate emits up to the video-job call. -/
def videoRunCommonTrace (env : OrchEnv) (cleanFrame : String) : List OEvent :=
  [OEvent.setStatus (processingState none 10),
   OEvent.setStatus
     (processingState (some "Video processing requires a paid API key. Checking...") 20),
   OEvent.setStatus (processingState (some "Extracting reference frame...") 30),
   OEvent.frameExtract env.videoWidth env.videoHeight,
   OEvent.setStatus (processingState (some "Cleaning reference frame...") 50),
   OEvent.editCall (extractedFrameBase64 env) "image/jpeg",
   OEvent.setStatus
     (processingState (some "Reconstructing video stream (this may take a minute)...") 70),
   OEvent.videoCall cleanFrame "image/jpeg"]

/- ### Helper lemmas -/

theorem getD_mem_or_default : ∀ (l : List Char) (n : Nat) (d : Char),
    l.getD n d ∈ l ∨ l.getD n d = d
  | [], _, d => Or.inr (by simp [List.getD])
  | a :: _, 0, _ => Or.inl (by simp [List.getD])
  | a :: l, n + 1, d => by
    rw [List.getD_cons_succ]
    rcases getD_mem_or_default l n d with h | h
    · exact Or.inl (List.mem_cons_of_mem a h)
    · exact Or.inr h

theorem b64Char_mem (n : Nat) : b64Char n ∈ b64Alphabet := by
  rw [b64Char]
  rcases getD_mem_or_default b64Alphabet n 'A' with h | h
  · exact h
  · rw [h]; decide

theorem b64Char_ne_comma (n : Nat) : b64Char n ≠ ',' := by
  intro h
  have hmem := b64Char_mem n
  rw [h] at hmem
  revert hmem; decide

theorem b64Char_ne_pad (n : Nat) : b64Char n ≠ '=' := by
  intro h
  have hmem := b64Char_mem n
  rw [h] at hmem
  revert hmem; decide

theorem b64Val_b64Char : ∀ v : Nat, v < 64 → b64Val (b64Char v) = some v := by decide

theorem base64Encode_no_comma : ∀ (bytes : List Nat), ',' ∉ base64Encode bytes
  | [] => by simp [base64Encode]
  | [b1] => by
    intro h
    simp only [base64Encode, List.mem_cons, List.not_mem_nil, or_false] at h
    rcases h with h | h | h | h
    · exact b64Char_ne_comma _ h.symm
    · exact b64Char_ne_comma _ h.symm
    · exact absurd h (by decide)
    · exact absurd h (by decide)
  | [b1, b2] => by
    intro h
    simp only [base64Encode, List.mem_cons, List.not_mem_nil, or_false] at h
    rcases h with h | h | h | h
    · exact b64Char_ne_comma _ h.symm
    · exact b64Char_ne_comma _ h.symm
    · exact b64Char_ne_comma _ h.symm
    · exact absurd h (by decide)
  | b1 :: b2 :: b3 :: rest => by
    intro h
    simp only [base64Encode, List.mem_cons] at h
    rcases h with h | h | h | h | h
    · exact b64Char_ne_comma _ h.symm
    · exact b64Char_ne_comma _ h.symm
    · exact b64Char_ne_comma _ h.symm
    · exact b64Char_ne_comma _ h.symm
    · exact base64Encode_no_comma rest h

theorem base64_roundtrip : ∀ (bytes : List Nat), (∀ b ∈ bytes, b < 256) →
    base64Decode (base64Encode bytes) = some bytes
  | [], _ => rfl
  | [b1], h => by
    have hb1 : b1 < 256 := h b1 (by simp)
    have h1 : b1 / 4 < 64 := by omega
    have h2 : b1 % 4 * 16 < 64 := by omega
    simp [base64Encode, base64Decode, b64Val_b64Char _ h1, b64Val_b64Char _ h2]
    all_goals omega
  | [b1, b2], h => by
    have hb1 : b1 < 256 := h b1 (by simp)
    have hb2 : b2 < 256 := h b2 (by simp)
    have h1 : b1 / 4 < 64 := by omega
    have h2 : b1 % 4 * 16 + b2 / 16 < 64 := by omega
    have h3 : b2 % 16 * 4 < 64 := by omega
    simp [base64Encode, base64Decode, b64Val_b64Char _ h1, b64Val_b64Char _ h2,
      b64Val_b64Char _ h3, if_neg (b64Char_ne_pad _)]
    all_goals omega
  | b1 :: b2 :: b3 :: rest, h => by
    have hb1 : b1 < 256 := h b1 (by simp)
    have hb2 : b2 < 256 := h b2 (by simp)
    have hb3 : b3 < 256 := h b3 (by simp)
    have ih := base64_roundtrip rest (fun b hb => h b (by simp [hb]))
    have h1 : b1 / 4 < 64 := by omega
    have h2 : b1 % 4 * 16 + b2 / 16 < 64 := by omega
    have h3 : b2 % 16 * 4 + b3 / 64 < 64 := by omega
    have h4 : b3 % 64 < 64 := by omega
    simp [base64Encode, base64Decode, b64Val_b64Char _ h1, b64Val_b64Char _ h2,
      b64Val_b64Char _ h3, b64Val_b64Char _ h4, if_neg (b64Char_ne_pad _), ih]
    all_goals omega

theorem splitOnComma_no_comma : ∀ (l : List Char), ',' ∉ l → splitOnComma l = [l]
  | [], _ => rfl
  | c :: rest, h => by
    have hc : ¬ c = ',' := fun e => h (by simp [e])
    have ih := splitOnComma_no_comma rest (fun m => h (List.mem_cons_of_mem _ m))
    simp [splitOnComma, hc, ih]

theorem splitOnComma_append : ∀ (a b : List Char), ',' ∉ a →
    splitOnComma (a ++ ',' :: b) = a :: splitOnComma b
  | [], b, _ => by simp [splitOnComma]
  | c :: a, b, h => by
    have hc : ¬ c = ',' := fun e => h (by simp [e])
    have ih := splitOnComma_append a b (fun m => h (List.mem_cons_of_mem _ m))
    simp [splitOnComma, hc, List.append_eq, ih]

theorem fileToBase64_eq (f : MediaFile) (hm : ',' ∉ f.mimeType.data) :
    fileToBase64 f = String.mk (base64Encode f.bytes) := by
  have hsplit : ";base64,".data = ";base64".data ++ [','] := by decide
  have hpre : ',' ∉ ("data:".data ++ f.mimeType.data ++ ";base64".data) := by
    intro h
    rcases List.mem_append.mp h with h | h
    · rcases List.mem_append.mp h with h | h
      · revert h; decide
      · exact hm h
    · revert h; decide
  have harr : readAsDataURL f
      = ("data:".data ++ f.mimeType.data ++ ";base64".data)
          ++ ',' :: base64Encode f.bytes := by
    rw [readAsDataURL, hsplit]
    simp [List.append_assoc]
  rw [fileToBase64, harr, splitOnComma_append _ _ hpre,
    splitOnComma_no_comma _ (base64Encode_no_comma f.bytes)]
  rfl

theorem firstInlineData_none : ∀ (ps : List Part), (∀ p ∈ ps, partHasInline p = false) →
    firstInlineData ps = none
  | [], _ => rfl
  | p :: rest, h => by
    have hp := h p (by simp)
    have ih := firstInlineData_none rest (fun q hq => h q (by simp [hq]))
    rcases hdl : p.inlineData with _ | d
    · simp [firstInlineData, hdl, ih]
    · rw [partHasInline, hdl] at hp
      have hd : d.data = "" := by
        by_cases he : d.data = ""
        · exact he
        · simp [he] at hp
      simp [firstInlineData, hdl, hd, ih]

theorem firstInlineData_append (pre rest : List Part)
    (h : ∀ p ∈ pre, partHasInline p = false) :
    firstInlineData (pre ++ rest) = firstInlineData rest := by
  induction pre with
  | nil => rfl
  | cons p ps ih =>
    have hp := h p (by simp)
    have ih2 := ih (fun q hq => h q (by simp [hq]))
    rcases hdl : p.inlineData with _ | d
    · simp [firstInlineData, hdl, ih2]
    · rw [partHasInline, hdl] at hp
      have hd : d.data = "" := by
        by_cases he : d.data = ""
        · exact he
        · simp [he] at hp
      simp [firstInlineData, hdl, hd, ih2]

/- ### Claim C1 -/

/-- Claim C1: the image-edit client scans the response's parts in order and returns
the payload of the first part carrying inline binary data; in particular, in the
spec's concrete scenario (a response with one text part followed by one binary part
"CLEANED") the orchestration run ends in `success` with result payload "CLEANED"
embedded as `data:image/png;base64,CLEANED`. -/
theorem claim_c1 (r : GenerateContentResponse) (pre post : List Part) (p : Part)
    (d : InlineData) (hr : responseParts r = pre ++ p :: post)
    (hpre : ∀ q ∈ pre, partHasInline q = false)
    (hp : p.inlineData = some d) (hd : d.data ≠ "") :
    removeImageWatermark (Except.ok r) = Except.ok d.data
    ∧ handleRemoveWatermark c1Env c1State
      = (some { c1State with
                  resultUrl := some "data:image/png;base64,CLEANED",
                  status := successState },
         [OEvent.setStatus (processingState none 10),
          OEvent.setStatus (processingState (some "Analyzing image structure...") 30),
          OEvent.sleep 500,
          OEvent.setStatus (processingState (some "Removing watermark patterns...") 60),
          OEvent.editCall (fileToBase64 fixtureFile) "image/png",
          OEvent.setStatus successState]) := by
  constructor
  · simp [removeImageWatermark, hr, firstInlineData_append pre _ hpre,
      firstInlineData, hp, hd]
  · decide

/-- Claim C1 witness: the scan instantiated at the concrete faked response. -/
theorem claim_c1_witness :
    responseParts c1Response = [c1TextPart] ++ c1BinaryPart :: []
    ∧ (∀ q ∈ [c1TextPart], partHasInline q = false)
    ∧ c1BinaryPart.inlineData = some ⟨"image/png", "CLEANED"⟩
    ∧ ("CLEANED" : String) ≠ ""
    ∧ removeImageWatermark (Except.ok c1Response) = Except.ok "CLEANED" :=
  ⟨by decide, by decide, by decide, by decide,
   (claim_c1 c1Response [c1TextPart] [] c1BinaryPart ⟨"image/png", "CLEANED"⟩
      (by decide) (by decide) (by decide) (by decide)).1⟩

/- ### Claim C4 -/

/-- Claim C4: when no response part carries inline binary data the image-edit client
signals `noResultData` ("No image data returned from the model."); a transport/auth
failure of the remote call propagates to the caller as-is, its message unmodified; and
the client consumes exactly one remote response per run — it never retries. -/
theorem claim_c4 (r : GenerateContentResponse)
    (h : ∀ p ∈ responseParts r, partHasInline p = false) :
    removeImageWatermark (Except.ok r) = Except.error EditError.noResultData
    ∧ EditError.noResultData.message = "No image data returned from the model."
    ∧ (∀ e : String, removeImageWatermark (Except.error e)
        = Except.error (EditError.transport e) ∧ (EditError.transport e).message = e)
    ∧ (∀ oracle oracle' : Nat → Except String GenerateContentResponse,
        oracle 0 = oracle' 0 →
          removeImageWatermarkRun oracle = removeImageWatermarkRun oracle')
    ∧ (∀ oracle : Nat → Except String GenerateContentResponse,
        (removeImageWatermarkRun oracle).2 = 1) := by
  refine ⟨?_, rfl, fun e => ⟨rfl, rfl⟩, fun o o' ho => ?_, fun o => rfl⟩
  · simp [removeImageWatermark, firstInlineData_none _ h]
  · rw [removeImageWatermarkRun, removeImageWatermarkRun, ho]

/-- Claim C4 witness: the `noResultData` outcome at a concrete text-only response. -/
theorem claim_c4_witness :
    (∀ p ∈ responseParts c4Response, partHasInline p = false)
    ∧ removeImageWatermark (Except.ok c4Response) = Except.error EditError.noResultData :=
  ⟨by decide, (claim_c4 c4Response (by decide)).1⟩

/- ### Claim C6 -/

/-- Claim C6: encoding an asset with `fileToBase64` strips the data-URI metadata
prefix `data:<mime>;base64,` (the mime type is preserved inside that prefix and the
asset record is untouched), leaving exactly the base64 encoding of the asset's bytes,
and decoding the resulting payload reproduces the original bytes exactly. -/
theorem claim_c6 (f : MediaFile) (hb : ∀ b ∈ f.bytes, b < 256)
    (hm : ',' ∉ f.mimeType.data) :
    fileToBase64 f = String.mk (base64Encode f.bytes)
    ∧ base64Decode (base64Encode f.bytes) = some f.bytes
    ∧ readAsDataURL f
      = "data:".data ++ f.mimeType.data ++ ";base64,".data ++ base64Encode f.bytes :=
  ⟨fileToBase64_eq f hm, base64_roundtrip f.bytes hb, rfl⟩

/-- Claim C6 witness: the round-trip at the concrete 10-byte `image/png` fixture. -/
theorem claim_c6_witness :
    (∀ b ∈ fixtureFile.bytes, b < 256)
    ∧ ',' ∉ fixtureFile.mimeType.data
    ∧ (fileToBase64 fixtureFile = String.mk (base64Encode fixtureFile.bytes)
       ∧ base64Decode (base64Encode fixtureFile.bytes) = some fixtureFile.bytes
       ∧ readAsDataURL fixtureFile
         = "data:".data ++ fixtureFile.mimeType.data ++ ";base64,".data
             ++ base64Encode fixtureFile.bytes) :=
  ⟨by decide, by decide, claim_c6 fixtureFile (by decide) (by decide)⟩

/- ### Poll-loop lemmas -/

theorem pollLoop_spec : ∀ (notDone : List VideoOperation) (op0 doneOp : VideoOperation),
    op0.done = false → (∀ o ∈ notDone, o.done = false) → doneOp.done = true →
    pollLoop op0 (notDone ++ [doneOp]) = (some doneOp, pollTrace (notDone.length + 1))
  | [], op0, doneOp, h0, _, hd => by
    simp [pollLoop, h0, hd, pollTrace]
  | o :: rest, op0, doneOp, h0, hnd, hd => by
    have ho := hnd o (by simp)
    have ih := pollLoop_spec rest o doneOp ho (fun q hq => hnd q (by simp [hq])) hd
    simp [pollLoop, h0, ih, pollTrace]

theorem pollLoop_no_assetFetch : ∀ (op : VideoOperation) (sts : List VideoOperation),
    (pollLoop op sts).2.filter isAssetFetch = []
  | op, [] => by
    rcases h : op.done <;> simp [pollLoop, h]
  | op, s :: rest => by
    have ih := pollLoop_no_assetFetch s rest
    rcases h : op.done <;> simp [pollLoop, h, isAssetFetch, ih]

theorem pollLoop_done : ∀ (op : VideoOperation) (sts : List VideoOperation)
    (f : VideoOperation), (pollLoop op sts).1 = some f → f.done = true
  | op, [], f => by
    intro he
    rcases h : op.done
    · simp [pollLoop, h] at he
    · simp [pollLoop, h] at he
      rw [← he]; exact h
  | op, s :: rest, f => by
    intro he
    rcases h : op.done
    · simp [pollLoop, h] at he
      exact pollLoop_done s rest f he
    · simp [pollLoop, h] at he
      rw [← he]; exact h

theorem pollTrace_count : ∀ n : Nat, ((pollTrace n).filter isStatusFetch).length = n
  | 0 => rfl
  | n + 1 => by simp [pollTrace, isStatusFetch, pollTrace_count n]

theorem pollTrace_no_asset : ∀ n : Nat, (pollTrace n).filter isAssetFetch = []
  | 0 => rfl
  | n + 1 => by simp [pollTrace, isAssetFetch, pollTrace_no_asset n]

theorem gateTrace_filters (as : Option AiStudio) :
    (gateTrace as).filter isStatusFetch = [] ∧ (gateTrace as).filter isAssetFetch = [] := by
  rcases as with _ | a
  · exact ⟨rfl, rfl⟩
  · rcases hk : a.hasSelectedApiKey with _ | b
    · simp [gateTrace, hk]
    · simp [gateTrace, hk, isStatusFetch, isAssetFetch]

theorem reconstruct_gate (as : Option AiStudio) (h : gatePasses as = true)
    (op : VideoOperation) (sts : List VideoOperation) (url : String) :
    reconstructVideoFromImage as op sts url
      = ((videoBody op sts url).1, gateTrace as ++ (videoBody op sts url).2) := by
  rcases as with _ | a
  · simp [reconstructVideoFromImage, gateTrace]
  · rcases hk : a.hasSelectedApiKey with _ | b
    · simp [reconstructVideoFromImage, gateTrace, hk]
    · rcases b
      · rw [gatePasses] at h
        simp [hk] at h
      · simp [reconstructVideoFromImage, gateTrace, hk]

/- ### Claim C2 -/

/-- Claim C2: for a job-status answer sequence of N "not done" responses followed by
one "done" response with a valid locator, the video-job client performs exactly N+1
status fetches, each preceded by a fixed 5000 ms wait (the trace is exactly
`submit, (wait 5000, statusFetch)^(N+1), assetFetch`), replaces the held handle with
the freshly fetched one each iteration (the final held handle is the last answer),
and performs exactly one asset fetch, placed after the last status fetch — so no
asset fetch happens before `done` is observed. -/
theorem claim_c2 (as : Option AiStudio) (op0 doneOp : VideoOperation)
    (notDone : List VideoOperation) (u url : String)
    (hg : gatePasses as = true) (h0 : op0.done = false)
    (hnd : ∀ o ∈ notDone, o.done = false) (hd : doneOp.done = true)
    (hu : doneOp.uri = some u) (hne : u ≠ "") :
    reconstructVideoFromImage as op0 (notDone ++ [doneOp]) url
      = (some (Except.ok url),
         gateTrace as
           ++ VEvent.submitCall
             :: (pollTrace (notDone.length + 1) ++ [VEvent.assetFetch u]))
    ∧ (((gateTrace as
          ++ VEvent.submitCall
            :: (pollTrace (notDone.length + 1) ++ [VEvent.assetFetch u])).filter
          isStatusFetch).length) = notDone.length + 1
    ∧ ((gateTrace as
          ++ VEvent.submitCall
            :: (pollTrace (notDone.length + 1) ++ [VEvent.assetFetch u])).filter
         isAssetFetch) = [VEvent.assetFetch u]
    ∧ pollLoop op0 (notDone ++ [doneOp]) = (some doneOp, pollTrace (notDone.length + 1)) := by
  have hpoll := pollLoop_spec notDone op0 doneOp h0 hnd hd
  have hbody : videoBody op0 (notDone ++ [doneOp]) url
      = (some (Except.ok url),
         VEvent.submitCall :: (pollTrace (notDone.length + 1) ++ [VEvent.assetFetch u])) := by
    rw [videoBody, hpoll]
    simp [hu, hne]
  refine ⟨?_, ?_, ?_, hpoll⟩
  · rw [reconstruct_gate as hg, hbody]
  · simp [List.filter_append, (gateTrace_filters as).1, isStatusFetch, pollTrace_count,
      isAssetFetch]
  · simp [List.filter_append, (gateTrace_filters as).2, isStatusFetch, pollTrace_no_asset,
      isAssetFetch]

/-- Claim C2 witness: one "not done" answer followed by a "done" answer (N = 1). -/
theorem claim_c2_witness :
    gatePasses none = true
    ∧ c2Op0.done = false
    ∧ (∀ o ∈ [c2Op0], o.done = false)
    ∧ c2Done.done = true
    ∧ c2Done.uri = some "uri-1"
    ∧ ("uri-1" : String) ≠ ""
    ∧ reconstructVideoFromImage none c2Op0 ([c2Op0] ++ [c2Done]) "blob:result"
      = (some (Except.ok "blob:result"),
         gateTrace none
           ++ VEvent.submitCall
             :: (pollTrace ([c2Op0].length + 1) ++ [VEvent.assetFetch "uri-1"])) :=
  ⟨rfl, rfl, by decide, rfl, rfl, by decide,
   (claim_c2 none c2Op0 c2Done [c2Op0] "uri-1" "blob:result" rfl rfl (by decide) rfl rfl
      (by decide)).1⟩

/- ### Claim C5 -/

/-- Claim C5: once a poll run ends with a job whose `done` flag is true, the client
reads the result locator from that job's response payload; when no (nonempty) locator
is present it signals `missingResultLocator` ("Video generation failed to return a
URI.") and the trace contains no asset fetch at all. -/
theorem claim_c5 (as : Option AiStudio) (op0 : VideoOperation)
    (sts : List VideoOperation) (url : String) (f : VideoOperation)
    (hg : gatePasses as = true) (hp : (pollLoop op0 sts).1 = some f)
    (hu : f.uri = none ∨ f.uri = some "") :
    reconstructVideoFromImage as op0 sts url
      = (some (Except.error VideoError.missingResultLocator),
         gateTrace as ++ VEvent.submitCall :: (pollLoop op0 sts).2)
    ∧ (gateTrace as ++ VEvent.submitCall :: (pollLoop op0 sts).2).filter isAssetFetch = []
    ∧ f.done = true
    ∧ VideoError.missingResultLocator.message
      = "Video generation failed to return a URI." := by
  have hbody : videoBody op0 sts url
      = (some (Except.error VideoError.missingResultLocator),
         VEvent.submitCall :: (pollLoop op0 sts).2) := by
    rw [videoBody]
    rcases hu with hu | hu <;> simp [hp, hu]
  refine ⟨by rw [reconstruct_gate as hg, hbody], ?_, pollLoop_done op0 sts f hp, rfl⟩
  simp [List.filter_append, (gateTrace_filters as).2, isAssetFetch,
    pollLoop_no_assetFetch]

/-- Claim C5 witness: a job that is done immediately but carries no locator. -/
theorem claim_c5_witness :
    gatePasses none = true
    ∧ (pollLoop c5Op []).1 = some c5Op
    ∧ (c5Op.uri = none ∨ c5Op.uri = some "")
    ∧ reconstructVideoFromImage none c5Op [] "x"
      = (some (Except.error VideoError.missingResultLocator),
         gateTrace none ++ VEvent.submitCall :: (pollLoop c5Op []).2) :=
  ⟨rfl, rfl, Or.inl rfl, (claim_c5 none c5Op [] "x" c5Op rfl rfl (Or.inl rfl)).1⟩

/- ### Orchestrator lemmas -/

theorem handleRW_video_noai (env : OrchEnv) (st : AppState) (f : MediaFile)
    (hf : st.file = some f) (htab : st.activeTab = MediaType.VIDEO)
    (hread : env.readError = none) (henv : env.aistudio = none) :
    handleRemoveWatermark env st
      = videoFlowBody env st
          [OEvent.setStatus (processingState none 10),
           OEvent.setStatus
             (processingState (some "Video processing requires a paid API key. Checking...") 20)] := by
  simp [handleRemoveWatermark, hf, hread, htab, henv]

theorem handleRW_video_gatePasses (env : OrchEnv) (st : AppState) (f : MediaFile)
    (hf : st.file = some f) (htab : st.activeTab = MediaType.VIDEO)
    (hread : env.readError = none) (hgate : gatePasses env.aistudio = true) :
    ∃ pre : List OEvent, handleRemoveWatermark env st = videoFlowBody env st pre := by
  rcases hai : env.aistudio with _ | a
  · exact ⟨_, handleRW_video_noai env st f hf htab hread hai⟩
  · rcases hk : a.hasSelectedApiKey with _ | b
    · refine ⟨[OEvent.setStatus (processingState none 10),
          OEvent.setStatus
            (processingState (some "Video processing requires a paid API key. Checking...") 20)],
        ?_⟩
      simp [handleRemoveWatermark, hf, hread, htab, hai, hk]
    · rcases b
      · rw [hai] at hgate
        rw [gatePasses] at hgate
        simp [hk] at hgate
      · refine ⟨[OEvent.setStatus (processingState none 10),
            OEvent.setStatus
              (processingState (some "Video processing requires a paid API key. Checking...") 20),
            OEvent.keyCheck true],
          ?_⟩
        simp [handleRemoveWatermark, hf, hread, htab, hai, hk]

theorem videoFlowBody_editCall (env : OrchEnv) (st : AppState) (pre : List OEvent) :
    OEvent.editCall (extractedFrameBase64 env) "image/jpeg" ∈ (videoFlowBody env st pre).2 := by
  simp only [videoFlowBody]
  rcases hE : removeImageWatermark env.editResponse with e | c
  · simp [hE]
  · rcases hr : (reconstructVideoFromImage env.aistudio env.submitOp env.statuses
        env.objectUrl).1 with _ | res
    · simp [hr]
    · rcases res with ve | u <;> simp [hr]

/- ### Claim C3 -/

/-- Claim C3: for a video asset, when the capability check returns false the run
resets to `idle` (and prompts key selection via `openSelectKey`) without entering
`error` and without any remote call: the exact trace holds two progress updates, the
failed key check, the idle reset and the prompt — no edit-service call, no
video-service call, no error update. -/
theorem claim_c3 (env : OrchEnv) (st : AppState) (f : MediaFile) (a : AiStudio)
    (hf : st.file = some f) (htab : st.activeTab = MediaType.VIDEO)
    (hread : env.readError = none) (ha : env.aistudio = some a)
    (hkey : a.hasSelectedApiKey = some false) :
    handleRemoveWatermark env st
      = (some { st with status := idleState },
         [OEvent.setStatus (processingState none 10),
          OEvent.setStatus
            (processingState (some "Video processing requires a paid API key. Checking...") 20),
          OEvent.keyCheck false,
          OEvent.setStatus idleState,
          OEvent.openSelectKey])
    ∧ (handleRemoveWatermark env st).2.filter isRemoteCallEvent = []
    ∧ (handleRemoveWatermark env st).2.filter isErrorUpdate = []
    ∧ ((handleRemoveWatermark env st).1.map fun s => s.status.status)
      = some StatusTag.idle := by
  have hrun : handleRemoveWatermark env st
      = (some { st with status := idleState },
         [OEvent.setStatus (processingState none 10),
          OEvent.setStatus
            (processingState (some "Video processing requires a paid API key. Checking...") 20),
          OEvent.keyCheck false,
          OEvent.setStatus idleState,
          OEvent.openSelectKey]) := by
    simp [handleRemoveWatermark, hf, hread, htab, ha, hkey]
  refine ⟨hrun, ?_, ?_, ?_⟩
  · rw [hrun]
    simp [isRemoteCallEvent, isEditCallEvent, isVideoCallEvent]
  · rw [hrun]
    simp [isErrorUpdate, idleState, processingState]
  · rw [hrun]
    simp [idleState]

/-- Claim C3 witness: the concrete video run whose key check answers false. -/
theorem claim_c3_witness :
    videoState.file = some videoFile
    ∧ videoState.activeTab = MediaType.VIDEO
    ∧ c3Env.readError = none
    ∧ c3Env.aistudio = some c3A
    ∧ c3A.hasSelectedApiKey = some false
    ∧ (handleRemoveWatermark c3Env videoState).2.filter isRemoteCallEvent = [] :=
  ⟨rfl, rfl, rfl, rfl, rfl,
   (claim_c3 c3Env videoState videoFile c3A rfl rfl rfl rfl rfl).2.1⟩

/- ### Claim C10 -/

/-- Claim C10 (implicit): when the ambient `window.aistudio` collaborator, or its
`hasSelectedApiKey` method, is absent, both the video-job client and the
orchestrator's video flow skip the capability check entirely and proceed as if
authorized: the client goes straight to submission (its trace starts with the submit
call and has no key-check event), and the orchestrator run performs frame extraction,
the edit call and the video-job call with no key-check event in its trace. -/
theorem claim_c10 (op : VideoOperation) (sts : List VideoOperation) (url : String)
    (a : AiStudio) (ha : a.hasSelectedApiKey = none)
    (env : OrchEnv) (st : AppState) (f : MediaFile) (d : String)
    (henv : env.aistudio = none) (hf : st.file = some f)
    (htab : st.activeTab = MediaType.VIDEO) (hread : env.readError = none)
    (hedit : removeImageWatermark env.editResponse = Except.ok d) :
    reconstructVideoFromImage none op sts url = videoBody op sts url
    ∧ reconstructVideoFromImage (some a) op sts url = videoBody op sts url
    ∧ (videoBody op sts url).2.head? = some VEvent.submitCall
    ∧ (handleRemoveWatermark env st).2.filter isKeyCheckEvent = []
    ∧ OEvent.frameExtract env.videoWidth env.videoHeight ∈ (handleRemoveWatermark env st).2
    ∧ OEvent.editCall (extractedFrameBase64 env) "image/jpeg"
        ∈ (handleRemoveWatermark env st).2
    ∧ OEvent.videoCall d "image/jpeg" ∈ (handleRemoveWatermark env st).2 := by
  have hrun := handleRW_video_noai env st f hf htab hread henv
  have hhead : (videoBody op sts url).2.head? = some VEvent.submitCall := by
    rw [videoBody]
    rcases h1 : (pollLoop op sts).1 with _ | fOp
    · simp [h1]
    · rcases hu : fOp.uri with _ | u
      · simp [h1, hu]
      · by_cases hz : u = "" <;> simp [h1, hu, hz]
  have hmem : ∃ tail : List OEvent,
      (handleRemoveWatermark env st).2 = videoRunCommonTrace env d ++ tail
      ∧ (tail = [] ∨ ∃ s : ProcessingState, tail = [OEvent.setStatus s]) := by
    rw [hrun]
    simp only [videoFlowBody, hedit]
    rcases hr : (reconstructVideoFromImage env.aistudio env.submitOp env.statuses
        env.objectUrl).1 with _ | res
    · refine ⟨[], ?_, Or.inl rfl⟩
      simp [hr, videoRunCommonTrace]
    · rcases res with ve | u
      · refine ⟨[OEvent.setStatus (errorState (VideoError.message ve))], ?_, Or.inr ⟨_, rfl⟩⟩
        simp [hr, videoRunCommonTrace]
      · refine ⟨[OEvent.setStatus successState], ?_, Or.inr ⟨_, rfl⟩⟩
        simp [hr, videoRunCommonTrace]
  obtain ⟨tail, htr, hcase⟩ := hmem
  refine ⟨rfl, by simp [reconstructVideoFromImage, ha], hhead, ?_, ?_, ?_, ?_⟩ <;>
    rw [htr]
  · rcases hcase with h | ⟨s, h⟩ <;>
      simp [h, videoRunCommonTrace, isKeyCheckEvent, List.filter_append]
  · simp [videoRunCommonTrace]
  · simp [videoRunCommonTrace]
  · simp [videoRunCommonTrace]

/-- Claim C10 witness: the concrete video run with `window.aistudio` absent. -/
theorem claim_c10_witness :
    c10A.hasSelectedApiKey = none
    ∧ c10Env.aistudio = none
    ∧ videoState.file = some videoFile
    ∧ videoState.activeTab = MediaType.VIDEO
    ∧ c10Env.readError = none
    ∧ removeImageWatermark c10Env.editResponse = Except.ok "CLEANED"
    ∧ OEvent.videoCall "CLEANED" "image/jpeg" ∈ (handleRemoveWatermark c10Env videoState).2 :=
  ⟨rfl, rfl, rfl, rfl, rfl, rfl,
   (claim_c10 c10Op [] "blob:video" c10A rfl c10Env videoState videoFile "CLEANED"
      rfl rfl rfl rfl rfl).2.2.2.2.2.2⟩

/- ### Claim C7 -/

/-- Claim C7: a run that ends in the `error` state leaves the previously stored
result — and the selected file and preview — exactly untouched (the catch block only
replaces the status); the prior result is cleared only by the explicit user actions
that start a new run: selecting a new asset (`handleFileSelect`) or "Start Over". -/
theorem claim_c7 (env : OrchEnv) (st st' : AppState) (tr : List OEvent)
    (f : MediaFile) (url : String)
    (hrun : handleRemoveWatermark env st = (some st', tr))
    (herr : st'.status.status = StatusTag.error) :
    st'.resultUrl = st.resultUrl
    ∧ st'.file = st.file
    ∧ st'.previewUrl = st.previewUrl
    ∧ (handleFileSelect st f url).resultUrl = none
    ∧ (startOver st).resultUrl = none := by
  refine ⟨?_, ?_, ?_, rfl, rfl⟩ <;>
  · simp only [handleRemoveWatermark, videoFlowBody] at hrun
    repeat' split at hrun
    all_goals simp only [Prod.mk.injEq, Option.some.injEq] at hrun
    all_goals
      first
      | exact absurd hrun.1 (by simp)
      | (obtain ⟨h1, -⟩ := hrun
         subst h1
         first
         | rfl
         | (exfalso
            simp [successState, errorState, idleState, processingState] at herr))

/-- Claim C7 witness: a failed re-run over a state holding a prior success leaves the
prior result in place, while selecting a new file or starting over clears it. -/
theorem claim_c7_witness :
    handleRemoveWatermark c7Env c7State = (some c7Final, c7Trace)
    ∧ c7Final.status.status = StatusTag.error
    ∧ c7State.resultUrl = some "data:image/png;base64,OLD"
    ∧ (c7Final.resultUrl = c7State.resultUrl
       ∧ c7Final.file = c7State.file
       ∧ c7Final.previewUrl = c7State.previewUrl
       ∧ (handleFileSelect c7State fixtureFile "blob:new").resultUrl = none
       ∧ (startOver c7State).resultUrl = none) :=
  ⟨by decide, by decide, by decide,
   claim_c7 c7Env c7State c7Final c7Trace fixtureFile "blob:new" (by decide) (by decide)⟩

/- ### Claim C9 -/

/-- Claim C9 counterexample: the orchestrator performs no zero-dimension check and
never signals a frame-extraction failure. In the concrete video run whose first frame
has dimensions 0×0, the run proceeds to call the edit service with the empty extracted
payload and ends in `success`, not `error`. -/
theorem claim_c9_counterexample :
    ((handleRemoveWatermark c9Env videoState).1.map fun s => s.status.status)
      = some StatusTag.success
    ∧ OEvent.editCall "" "image/jpeg" ∈ (handleRemoveWatermark c9Env videoState).2
    ∧ ¬ ((handleRemoveWatermark c9Env videoState).1.map fun s => s.status.status)
          = some StatusTag.error := by
  refine ⟨by decide, by decide, by decide⟩

/-- Claim C9 amended: the orchestrator has no frame-dimension check and no
`FrameExtractionFailure` error kind; when the extracted frame has zero dimensions the
canvas yields the empty data URL, the extracted payload is the empty string, and the
run nevertheless proceeds to clean it: it calls the edit service with payload "" and
mime "image/jpeg" instead of transitioning to `error` beforehand. -/
theorem claim_c9_amended (env : OrchEnv) (st : AppState) (f : MediaFile)
    (hf : st.file = some f) (htab : st.activeTab = MediaType.VIDEO)
    (hread : env.readError = none) (hgate : gatePasses env.aistudio = true)
    (hdim : env.videoWidth = 0 ∨ env.videoHeight = 0) :
    extractedFrameBase64 env = ""
    ∧ OEvent.editCall "" "image/jpeg" ∈ (handleRemoveWatermark env st).2 := by
  have hfb : extractedFrameBase64 env = "" := by
    rw [extractedFrameBase64, canvasToDataURL, if_pos hdim]
    rfl
  obtain ⟨pre, hpre⟩ := handleRW_video_gatePasses env st f hf htab hread hgate
  refine ⟨hfb, ?_⟩
  rw [hpre]
  have hmem := videoFlowBody_editCall env st pre
  rwa [hfb] at hmem

/-- Claim C9 amended witness: the zero-dimension run at the concrete environment. -/
theorem claim_c9_amended_witness :
    videoState.file = some videoFile
    ∧ videoState.activeTab = MediaType.VIDEO
    ∧ c9Env.readError = none
    ∧ gatePasses c9Env.aistudio = true
    ∧ (c9Env.videoWidth = 0 ∨ c9Env.videoHeight = 0)
    ∧ (extractedFrameBase64 c9Env = ""
       ∧ OEvent.editCall "" "image/jpeg" ∈ (handleRemoveWatermark c9Env videoState).2) :=
  ⟨rfl, rfl, rfl, rfl, Or.inl rfl,
   claim_c9_amended c9Env videoState videoFile rfl rfl rfl rfl (Or.inl rfl)⟩

/- ### Claim C8 -/

theorem statusUpdates_append (a b : List OEvent) :
    statusUpdates (a ++ b) = statusUpdates a ++ statusUpdates b := by
  simp [statusUpdates]

theorem c8_video_aux (env : OrchEnv) (st : AppState) (pre : List OEvent)
    (hsu : statusUpdates pre
      = [processingState none 10,
         processingState (some "Video processing requires a paid API key. Checking...") 20]) :
    List.Chain' (· ≤ ·) (progressValues (videoFlowBody env st pre).2)
    ∧ ((statusUpdates (videoFlowBody env st pre).2).all
        fun u =>
          match u.status with
          | StatusTag.processing => u.progress.isSome
          | _ => true) = true
    ∧ (((statusUpdates (videoFlowBody env st pre).2).drop 1).all
        fun u =>
          match u.status with
          | StatusTag.processing => u.message.isSome
          | _ => true) = true := by
  rcases hE : removeImageWatermark env.editResponse with e | c
  · have htr : (videoFlowBody env st pre).2
        = pre ++ [OEvent.setStatus (processingState (some "Extracting reference frame...") 30),
                  OEvent.frameExtract env.videoWidth env.videoHeight,
                  OEvent.setStatus (processingState (some "Cleaning reference frame...") 50),
                  OEvent.editCall (extractedFrameBase64 env) "image/jpeg",
                  OEvent.setStatus (errorState (EditError.message e))] := by
      simp [videoFlowBody, hE]
    rw [htr]
    simp only [progressValues, statusUpdates_append, hsu]
    simp [statusUpdates, processingState, errorState]
  · rcases hr : (reconstructVideoFromImage env.aistudio env.submitOp env.statuses
        env.objectUrl).1 with _ | res
    · have htr : (videoFlowBody env st pre).2
          = pre ++ [OEvent.setStatus (processingState (some "Extracting reference frame...") 30),
                    OEvent.frameExtract env.videoWidth env.videoHeight,
                    OEvent.setStatus (processingState (some "Cleaning reference frame...") 50),
                    OEvent.editCall (extractedFrameBase64 env) "image/jpeg",
                    OEvent.setStatus
                      (processingState (some "Reconstructing video stream (this may take a minute)...") 70),
                    OEvent.videoCall c "image/jpeg"] := by
        simp [videoFlowBody, hE, hr]
      rw [htr]
      simp only [progressValues, statusUpdates_append, hsu]
      simp [statusUpdates, processingState]
    · rcases res with ve | u
      · have htr : (videoFlowBody env st pre).2
            = pre ++ [OEvent.setStatus (processingState (some "Extracting reference frame...") 30),
                      OEvent.frameExtract env.videoWidth env.videoHeight,
                      OEvent.setStatus (processingState (some "Cleaning reference frame...") 50),
                      OEvent.editCall (extractedFrameBase64 env) "image/jpeg",
                      OEvent.setStatus
                        (processingState (some "Reconstructing video stream (this may take a minute)...") 70),
                      OEvent.videoCall c "image/jpeg",
                      OEvent.setStatus (errorState (VideoError.message ve))] := by
          simp [videoFlowBody, hE, hr]
        rw [htr]
        simp only [progressValues, statusUpdates_append, hsu]
        simp [statusUpdates, processingState, errorState]
      · have htr : (videoFlowBody env st pre).2
            = pre ++ [OEvent.setStatus (processingState (some "Extracting reference frame...") 30),
                      OEvent.frameExtract env.videoWidth env.videoHeight,
                      OEvent.setStatus (processingState (some "Cleaning reference frame...") 50),
                      OEvent.editCall (extractedFrameBase64 env) "image/jpeg",
                      OEvent.setStatus
                        (processingState (some "Reconstructing video stream (this may take a minute)...") 70),
                      OEvent.videoCall c "image/jpeg",
                      OEvent.setStatus successState] := by
          simp [videoFlowBody, hE, hr]
        rw [htr]
        simp only [progressValues, statusUpdates_append, hsu]
        simp [statusUpdates, processingState, successState]

/-- Claim C8 counterexample: in the concrete image run the very first status update,
`{status: 'processing', progress: 10}` (App.tsx line 76), carries no message — so it
is not the case that every `ProcessingState` update of a run carries both a progress
percentage and a human-readable message alongside the non-decreasing progression. -/
theorem claim_c8_counterexample :
    ¬ (List.Chain' (· ≤ ·) (progressValues (handleRemoveWatermark c1Env c1State).2)
       ∧ ((statusUpdates (handleRemoveWatermark c1Env c1State).2).all
            fun u => u.progress.isSome && u.message.isSome) = true) := by
  intro h
  have hB := h.2
  revert hB
  decide

/-- Claim C8 amended: over every run (image or video flow), the published progress
percentages are monotonically non-decreasing; every `processing` update carries a
progress percentage; and every `processing` update after the initial one also carries
a human-readable message. (As the counterexample shows, the initial update — progress
10 — carries no message, and terminal updates carry no progress, so the claim's
"every update carries a message and a percentage" holds only in this weakened form.) -/
theorem claim_c8_amended (env : OrchEnv) (st : AppState) :
    List.Chain' (· ≤ ·) (progressValues (handleRemoveWatermark env st).2)
    ∧ ((statusUpdates (handleRemoveWatermark env st).2).all
        fun u =>
          match u.status with
          | StatusTag.processing => u.progress.isSome
          | _ => true) = true
    ∧ (((statusUpdates (handleRemoveWatermark env st).2).drop 1).all
        fun u =>
          match u.status with
          | StatusTag.processing => u.message.isSome
          | _ => true) = true := by
  obtain ⟨tab, file, pv, ru, stt⟩ := st
  obtain ⟨re, er, ai, w, hgt, fd, so, stsl, ou⟩ := env
  rcases file with _ | f
  · simp [handleRemoveWatermark, statusUpdates, progressValues]
  rcases re with _ | e
  case some =>
    simp [handleRemoveWatermark, statusUpdates, progressValues, processingState, errorState]
  rcases tab
  case IMAGE =>
    rcases hE : removeImageWatermark er with e | c <;>
      simp [handleRemoveWatermark, hE, statusUpdates, progressValues, processingState,
        errorState, successState]
  case VIDEO =>
    rcases ai with _ | a
    case none =>
      have hrw : handleRemoveWatermark ⟨none, er, none, w, hgt, fd, so, stsl, ou⟩
            ⟨MediaType.VIDEO, some f, pv, ru, stt⟩
          = videoFlowBody ⟨none, er, none, w, hgt, fd, so, stsl, ou⟩
              ⟨MediaType.VIDEO, some f, pv, ru, stt⟩
              [OEvent.setStatus (processingState none 10),
               OEvent.setStatus
                 (processingState (some "Video processing requires a paid API key. Checking...") 20)] :=
        handleRW_video_noai _ _ f rfl rfl rfl rfl
      rw [hrw]
      exact c8_video_aux _ _ _ (by simp [statusUpdates])
    case some =>
      rcases hk : a.hasSelectedApiKey with _ | b
      case none =>
        have hrw : handleRemoveWatermark ⟨none, er, some a, w, hgt, fd, so, stsl, ou⟩
              ⟨MediaType.VIDEO, some f, pv, ru, stt⟩
            = videoFlowBody ⟨none, er, some a, w, hgt, fd, so, stsl, ou⟩
                ⟨MediaType.VIDEO, some f, pv, ru, stt⟩
                [OEvent.setStatus (processingState none 10),
                 OEvent.setStatus
                   (processingState (some "Video processing requires a paid API key. Checking...") 20)] := by
          simp [handleRemoveWatermark, hk]
        rw [hrw]
        exact c8_video_aux _ _ _ (by simp [statusUpdates])
      case some =>
        rcases b
        case false =>
          simp [handleRemoveWatermark, hk, statusUpdates, progressValues, processingState,
            idleState]
        case true =>
          have hrw : handleRemoveWatermark ⟨none, er, some a, w, hgt, fd, so, stsl, ou⟩
                ⟨MediaType.VIDEO, some f, pv, ru, stt⟩
              = videoFlowBody ⟨none, er, some a, w, hgt, fd, so, stsl, ou⟩
                  ⟨MediaType.VIDEO, some f, pv, ru, stt⟩
                  [OEvent.setStatus (processingState none 10),
                   OEvent.setStatus
                     (processingState (some "Video processing requires a paid API key. Checking...") 20),
                   OEvent.keyCheck true] := by
            simp [handleRemoveWatermark, hk]
          rw [hrw]
          exact c8_video_aux _ _ _ (by simp [statusUpdates])

end MagicEraser
